import Mathlib

/-!
Shallow embedding of the session / token-refresh / move-submission core of
`chess_app.py`, together with theorems checking the specification claims.

Python exceptions are modelled by an explicit error type (`PyExc`), the mutable
Streamlit `session_state` by an explicit `Session` record threaded through every
operation, and the two remote services (identity provider, chess engine) by
response oracles passed in as parameters.  Network traffic is made observable by
recording the engine requests an operation issues (`EngineCall`) and counting the
refresh exchanges performed against the identity provider.
-/

namespace Chess

/-- Contiguous-sublist test on character lists. -/
def infixAt : List Char → List Char → Bool
  | needle, [] => needle.isEmpty
  | needle, c :: t => needle.isPrefixOf (c :: t) || infixAt needle t

/-- Python substring test `needle in hay`. -/
def strHas (hay needle : String) : Bool :=
  infixAt needle.toList hay.toList

/-- Python `s.lower()` (character-wise, matching ASCII usage here). -/
def pyLower (s : String) : String :=
  String.mk (s.toList.map Char.toLower)

/-- Python `s.upper()` (character-wise, matching ASCII usage here). -/
def pyUpper (s : String) : String :=
  String.mk (s.toList.map Char.toUpper)

deriving instance DecidableEq for Except

/-- A raised Python exception.  The wrapper distinguishes `ValueError` from other
exceptions (`except ValueError`), and `st.rerun()` raises the dedicated Streamlit
rerun exception, so three constructors suffice. -/
inductive PyExc where
  | valueError (msg : String)
  | otherExc (msg : String)
  | rerun
deriving DecidableEq, Repr

/-- Python `str(e)` on an exception. -/
def PyExc.str : PyExc → String
  | .valueError m => m
  | .otherExc m => m
  | .rerun => "RerunException"

/-- The token / unauthorized heuristic of `with_token_refresh`, line 21:
`"token" in str(e).lower() or "unauthorized" in str(e).lower()`. -/
def tokenSignal (e : PyExc) : Bool :=
  strHas (pyLower e.str) "token" || strHas (pyLower e.str) "unauthorized"

/-- `st.session_state`: the per-user mutable session record initialised in `main`
(lines 363-376).  `api_client` holds the access token the stored client was built
with (`None` when logged out); an `ApiClient` object is always truthy in Python,
so its truthiness is `Option.isSome`, while `refresh_token` is a string whose
truthiness also rules out the empty string. -/
structure Session where
  username : Option String := none
  stored_username : Option String := none
  api_client : Option String := none
  auth_token : Option String := none
  refresh_token : Option String := none
  active_game_id : Option String := none
deriving DecidableEq, Repr

/-- The state `st.session_state.clear()` leaves behind (all keys reinitialised to
`None` on the next run of `main`). -/
def emptySession : Session := {}

/-- The mutable attributes of the `ChessApp` object itself: `self.api_client` and
`self.configuration.access_token`, both holding the token the client carries. -/
structure App where
  api_client : Option String := none
  configuration_access_token : Option String := none
deriving DecidableEq, Repr

/-- The full mutable state an operation sees: the `ChessApp` object plus the
Streamlit session. -/
structure PState where
  app : App
  session : Session
deriving DecidableEq, Repr

/-- A decoded token-endpoint response carrying both required fields. -/
structure TokenData where
  access_token : String
  refresh_token : String
deriving DecidableEq, Repr

/-- Outcome of one HTTP exchange with the identity provider: either the request
errored (connection failure or non-2xx via `raise_for_status`), or a JSON object
was returned. -/
inductive HttpResp where
  | failure (msg : String)
  | json (fields : List (String × String))
deriving DecidableEq, Repr

/-- Dictionary lookup on a decoded JSON object. -/
def lookupField (fields : List (String × String)) (k : String) : Option String :=
  (fields.find? (fun p => p.1 == k)).map (fun p => p.2)

/-- `ChessApp.refresh_token` (lines 68-92): issues the refresh-grant exchange and
validates that both token fields are present; every failure is re-raised as a
`ValueError` prefixed with "Failed to refresh token:". -/
def refresh_token (resp : HttpResp) : Except PyExc TokenData :=
  match resp with
  | .failure msg => .error (.valueError ("Failed to refresh token: " ++ msg))
  | .json fields =>
    match lookupField fields "access_token", lookupField fields "refresh_token" with
    | some a, some r => .ok ⟨a, r⟩
    | _, _ => .error (.valueError "Failed to refresh token: Invalid token response")

/-- Result of `ensure_valid_token`: outcome, resulting state, and the number of
refresh exchanges performed against the identity provider. -/
structure EnsureOut where
  result : Except PyExc Unit
  state : PState
  refreshCalls : Nat
deriving DecidableEq, Repr

/-- `ChessApp.ensure_valid_token` (lines 94-106): requires a (truthy) stored
refresh token, performs the refresh exchange, and on success installs the new
client and token pair into the configuration, the app and the session; any
failure of the exchange is converted to `ValueError("Session expired. Please
login again.")`. -/
def ensure_valid_token (renew : HttpResp) (st : PState) : EnsureOut :=
  if st.session.refresh_token.getD "" = "" then
    ⟨.error (.valueError "No refresh token available. Please login again."), st, 0⟩
  else
    match refresh_token renew with
    | .error _ => ⟨.error (.valueError "Session expired. Please login again."), st, 1⟩
    | .ok td =>
      ⟨.ok (),
        ⟨⟨some td.access_token, some td.access_token⟩,
          { st.session with
            api_client := some td.access_token,
            auth_token := some td.access_token,
            refresh_token := some td.refresh_token }⟩, 1⟩

/-- The configured identity issuer, `AuthConfig.auth_url` (line 11). -/
def auth_url : String :=
  "https://keycloak-platformdemo-chess.noumena.cloud/realms/noumena"

/-- A `Party` value: claims mappings from claim name to list of values. -/
structure Party where
  entity : List (String × List String)
  access : List (String × List String)
deriving DecidableEq, Repr

/-- `ChessApp._create_party` (lines 235-239). -/
def _create_party (claims : List (String × List String)) : Party :=
  ⟨claims, []⟩

/-- `ChessApp._username_to_party` (lines 241-245). -/
def _username_to_party (username : String) : Party :=
  _create_party [("preferred_username", [username]), ("iss", [auth_url])]

/-- The white/black party pair of a game-creation request. -/
structure ChessParties where
  white : Party
  black : Party
deriving DecidableEq, Repr

/-- Body of the game-creation request. -/
structure ChessCreate where
  parties : ChessParties
deriving DecidableEq, Repr

/-- A game as returned by the engine. -/
structure GameDetail where
  id : String
  state : String
  parties : ChessParties
deriving DecidableEq, Repr

/-- One row of the games list. -/
structure GameSummary where
  id : String
  state : String
deriving DecidableEq, Repr

/-- Engine coordinates: `openapi_client.models.Position(x=..., y=...)`.  Python
integers are unbounded and the conversion in `make_move` subtracts raw code
points, so the components are integers. -/
structure Position where
  x : Int
  y : Int
deriving DecidableEq, Repr

/-- `openapi_client.models.Move(var_from=..., to=...)`; the second field is named
`to'` because `to` is reserved in Lean. -/
structure Move where
  var_from : Position
  to' : Position
deriving DecidableEq, Repr

/-- A piece as returned by the board endpoint. -/
structure Piece where
  type : String
  color : String
  position : Position
deriving DecidableEq, Repr

/-- One request issued against the chess-engine REST surface. -/
inductive EngineCall where
  | createChess (body : ChessCreate)
  | getChessList
  | chessGetBoard (id : String)
  | chessGetCurrentTurn (id : String)
  | getChessById (id : String)
  | chessMakeWhiteMove (id : String) (mv : Move)
  | chessMakeBlackMove (id : String) (mv : Move)
deriving DecidableEq, Repr

/-- Result of one invocation of an operation body: its outcome, the state it
leaves, the engine requests it issued, and the `st.error` messages it displayed. -/
structure OpRes (α : Type) where
  result : Except PyExc α
  state : PState
  calls : List EngineCall
  shown : List String
deriving DecidableEq, Repr

/-- An operation body, as wrapped by the decorator: a function of the mutable
state. -/
abbrev OpFun (α : Type) := PState → OpRes α

/-- Result of one call of a decorated operation: outcome, final state, number of
invocations of the wrapped body, number of refresh exchanges, engine requests
issued, and messages displayed. -/
structure WrapOut (α : Type) where
  result : Except PyExc α
  state : PState
  opCalls : Nat
  refreshCalls : Nat
  calls : List EngineCall
  shown : List String
deriving DecidableEq, Repr

/-- The decorator `with_token_refresh` (lines 15-30).  The first failure is
inspected for the token signal; if present, `ensure_valid_token` and one retry
run inside a `try` whose `except ValueError` displays the error, clears the
session and reruns (the rerun exception propagates, so the trailing `raise e` is
never reached on that path); a non-`ValueError` from the retry propagates as is;
without the signal the original failure propagates unchanged. -/
def with_token_refresh {α : Type} (func : OpFun α) (renew : HttpResp) (st : PState) :
    WrapOut α :=
  let r1 := func st
  match r1.result with
  | .ok v => ⟨.ok v, r1.state, 1, 0, r1.calls, r1.shown⟩
  | .error e =>
    if tokenSignal e then
      let ev := ensure_valid_token renew r1.state
      match ev.result with
      | .ok _ =>
        let r2 := func ev.state
        match r2.result with
        | .ok v => ⟨.ok v, r2.state, 2, ev.refreshCalls, r1.calls ++ r2.calls, r1.shown ++ r2.shown⟩
        | .error (.valueError m) =>
            ⟨.error .rerun, ⟨r2.state.app, emptySession⟩, 2, ev.refreshCalls,
              r1.calls ++ r2.calls, r1.shown ++ r2.shown ++ [m]⟩
        | .error e2 =>
            ⟨.error e2, r2.state, 2, ev.refreshCalls, r1.calls ++ r2.calls, r1.shown ++ r2.shown⟩
      | .error (.valueError m) =>
          ⟨.error .rerun, ⟨ev.state.app, emptySession⟩, 1, ev.refreshCalls,
            r1.calls, r1.shown ++ [m]⟩
      | .error e2 => ⟨.error e2, ev.state, 1, ev.refreshCalls, r1.calls, r1.shown⟩
    else ⟨.error e, r1.state, 1, 0, r1.calls, r1.shown⟩

/-- `ChessApp.get_chess_games` (lines 162-169), with the engine response supplied
as an oracle. -/
def get_chess_games (resp : Except PyExc (List GameSummary)) : OpFun (List GameSummary) :=
  fun st =>
    if st.session.api_client.isNone then
      ⟨.error (.valueError "Please login first"), st, [], []⟩
    else ⟨resp, st, [.getChessList], []⟩

/-- `ChessApp.get_board` (lines 171-177). -/
def get_board (game_id : String) (resp : Except PyExc (List Piece)) : OpFun (List Piece) :=
  fun st =>
    if st.session.api_client.isNone then
      ⟨.error (.valueError "Please login first"), st, [], []⟩
    else ⟨resp, st, [.chessGetBoard game_id], []⟩

/-- `ChessApp.get_current_turn` (lines 179-185). -/
def get_current_turn (game_id : String) (resp : Except PyExc String) : OpFun String :=
  fun st =>
    if st.session.api_client.isNone then
      ⟨.error (.valueError "Please login first"), st, [], []⟩
    else ⟨resp, st, [.chessGetCurrentTurn game_id], []⟩

/-- `ChessApp.get_game` (lines 227-233). -/
def get_game (game_id : String) (resp : Except PyExc GameDetail) : OpFun GameDetail :=
  fun st =>
    if st.session.api_client.isNone then
      ⟨.error (.valueError "Please login first"), st, [], []⟩
    else ⟨resp, st, [.getChessById game_id], []⟩

/-- `ChessApp.create_chess_instance` (lines 108-144): requires a logged-in
session, normalises the requested colour to upper case, builds the two parties
and submits the composite creation request. -/
def create_chess_instance (player_username opponent_username player_color : String)
    (resp : Except PyExc GameDetail) : OpFun GameDetail :=
  fun st =>
    if st.session.api_client.isNone then
      ⟨.error (.valueError "Please login first"), st, [], []⟩
    else
      let is_white := pyUpper player_color = "WHITE"
      let white_party := _username_to_party (if is_white then player_username else opponent_username)
      let black_party := _username_to_party (if is_white then opponent_username else player_username)
      let chess_create : ChessCreate := ⟨⟨white_party, black_party⟩⟩
      ⟨resp, st, [.createChess chess_create], []⟩

/-- Python string indexing `s[i]`: raises `IndexError` past the end. -/
def str_get (s : String) (i : Nat) : Except PyExc Char :=
  match s.toList.get? i with
  | some c => .ok c
  | none => .error (.otherExc "string index out of range")

/-- Python `int(c)` on a one-character string: the digit value, or `ValueError`. -/
def py_int_of_char (c : Char) : Except PyExc Int :=
  if '0' ≤ c ∧ c ≤ '9' then .ok ((c.toNat : Int) - ('0'.toNat : Int))
  else .error (.valueError ("invalid literal for int with base 10: " ++ String.singleton c))

/-- The `try` body of `ChessApp.make_move` (lines 189-214): login check,
coordinate conversion (`ord(pos[0].lower()) - ord('a')`, `int(pos[1]) - 1`) and
dispatch to the white- or black-move endpoint depending on
`current_turn == PieceColor.WHITE` (a string-valued enum). -/
def make_move_try (game_id from_pos to_pos current_turn : String)
    (resp : Except PyExc Unit) : OpFun Unit :=
  fun st =>
    if st.session.api_client.isNone then
      ⟨.error (.valueError "Please login first"), st, [], []⟩
    else
      match str_get from_pos 0 with
      | .error e => ⟨.error e, st, [], []⟩
      | .ok f0 =>
        match str_get from_pos 1 with
        | .error e => ⟨.error e, st, [], []⟩
        | .ok f1 =>
          match py_int_of_char f1 with
          | .error e => ⟨.error e, st, [], []⟩
          | .ok fy =>
            match str_get to_pos 0 with
            | .error e => ⟨.error e, st, [], []⟩
            | .ok t0 =>
              match str_get to_pos 1 with
              | .error e => ⟨.error e, st, [], []⟩
              | .ok t1 =>
                match py_int_of_char t1 with
                | .error e => ⟨.error e, st, [], []⟩
                | .ok ty =>
                  let from_position : Position :=
                    ⟨(f0.toLower.toNat : Int) - ('a'.toNat : Int), fy - 1⟩
                  let to_position : Position :=
                    ⟨(t0.toLower.toNat : Int) - ('a'.toNat : Int), ty - 1⟩
                  let mv : Move := ⟨from_position, to_position⟩
                  let call :=
                    if current_turn = "WHITE" then EngineCall.chessMakeWhiteMove game_id mv
                    else EngineCall.chessMakeBlackMove game_id mv
                  ⟨resp, st, [call], []⟩

/-- `ChessApp.make_move` (lines 187-225): runs the `try` body and classifies any
failure by substring ("Invalid move" first, then "Not your turn", otherwise the
generic message), displaying the classified message and re-raising the uniform
`ValueError("Move failed")`. -/
def make_move (game_id from_pos to_pos current_turn : String)
    (resp : Except PyExc Unit) : OpFun Unit :=
  fun st =>
    let r := make_move_try game_id from_pos to_pos current_turn resp st
    match r.result with
    | .ok v => ⟨.ok v, r.state, r.calls, r.shown⟩
    | .error e =>
      let error_msg := e.str
      let shownMsg :=
        if strHas error_msg "Invalid move" then "Invalid move! Please check the rules of chess."
        else if strHas error_msg "Not your turn" then "Not your turn!"
        else "Move failed. Please try again."
      ⟨.error (.valueError "Move failed"), r.state, r.calls, r.shown ++ [shownMsg]⟩

/-- Result of the move-form validation (lines 462-473 of `main`): the final
`valid_input` flag, unless the stray index lookup in the rank check raised, plus
the error messages displayed along the way. -/
structure FormRes where
  result : Except PyExc Bool
  shown : List String
deriving DecidableEq, Repr

/-- The validation block of the move form (lines 462-473): runs only when both
fields are nonempty; checks lengths, files and ranks in order, accumulating
messages; the rank check indexes position 1 of each square and therefore raises
`IndexError` on a one-character entry (short-circuiting on the from-square). -/
def move_form_validation (from_square to_square : String) : FormRes :=
  if from_square = "" ∨ to_square = "" then ⟨.ok true, []⟩
  else
    let v1 := from_square.length = 2 ∧ to_square.length = 2
    let s1 : List String := if v1 then [] else ["Squares must be in format like e2"]
    match str_get from_square 0, str_get to_square 0 with
    | .ok f0, .ok t0 =>
      let v2 := f0 ∈ "abcdefgh".toList ∧ t0 ∈ "abcdefgh".toList
      let s2 : List String := if v2 then [] else ["File must be between a and h"]
      match str_get from_square 1 with
      | .error e => ⟨.error e, s1 ++ s2⟩
      | .ok f1 =>
        if f1 ∈ "12345678".toList then
          match str_get to_square 1 with
          | .error e => ⟨.error e, s1 ++ s2⟩
          | .ok t1 =>
            let v3 := t1 ∈ "12345678".toList
            let s3 : List String := if v3 then [] else ["Rank must be between 1 and 8"]
            ⟨.ok (decide v1 && decide v2 && decide v3), s1 ++ s2 ++ s3⟩
        else
          ⟨.ok false, s1 ++ s2 ++ ["Rank must be between 1 and 8"]⟩
    | _, _ => ⟨.error (.otherExc "string index out of range"), s1⟩

/-- Result of one submission of the move form. -/
structure UIOut where
  result : Except PyExc Unit
  state : PState
  wrappedMoveCalls : Nat
  opCalls : Nat
  refreshCalls : Nat
  calls : List EngineCall
  shown : List String
deriving DecidableEq, Repr

/-- The move-form submission path of `main` (lines 462-493) with the submit
button pressed: validation, then — only when `valid_input` holds and both fields
are nonempty — the decorated `make_move` on the lower-cased squares, rerunning on
success and swallowing a `ValueError` (the error was already displayed). -/
def move_form_submit (game_id from_square to_square current_turn : String)
    (resp : Except PyExc Unit) (renew : HttpResp) (st : PState) : UIOut :=
  let fv := move_form_validation from_square to_square
  match fv.result with
  | .error e => ⟨.error e, st, 0, 0, 0, [], fv.shown⟩
  | .ok valid_input =>
    if valid_input = true ∧ from_square ≠ "" ∧ to_square ≠ "" then
      let w := with_token_refresh
        (make_move game_id (pyLower from_square) (pyLower to_square) current_turn resp) renew st
      match w.result with
      | .ok _ =>
          ⟨.error .rerun, w.state, 1, w.opCalls, w.refreshCalls, w.calls, fv.shown ++ w.shown⟩
      | .error (.valueError _) =>
          ⟨.ok (), w.state, 1, w.opCalls, w.refreshCalls, w.calls, fv.shown ++ w.shown⟩
      | .error e =>
          ⟨.error e, w.state, 1, w.opCalls, w.refreshCalls, w.calls, fv.shown ++ w.shown⟩
    else ⟨.ok (), st, 0, 0, 0, [], fv.shown⟩

/-- Validity of a single square, as the move-form checks decide it for each of
the two entered squares (length exactly 2, file in a-h, rank in 1-8). -/
def square_valid (s : String) : Bool :=
  match s.toList with
  | [c0, c1] => decide (c0 ∈ "abcdefgh".toList) && decide (c1 ∈ "12345678".toList)
  | _ => false

/-- `parse_square` of the Coordinate Translator (spec 4.4), as realised in the
code: the per-square validity check of the move form followed by the coordinate
conversion of `make_move` (lines 194-197). -/
def parse_square (s : String) : Option Position :=
  if square_valid s then
    match s.toList with
    | c0 :: c1 :: _ =>
        some ⟨(c0.toLower.toNat : Int) - ('a'.toNat : Int),
              (c1.toNat : Int) - ('0'.toNat : Int) - 1⟩
    | _ => none
  else none

/-- Modelled from the spec: `to_square` (spec 4.4) has no counterpart under src
(the board renderer flips coordinates for display but never produces an algebraic
square string); per the spec it is the inverse of `parse_square`, rendering a
`Position` as its two-character square. -/
def to_square (p : Position) : String :=
  String.mk [Char.ofNat (p.x + ('a'.toNat : Int)).toNat,
             Char.ofNat (p.y + 1 + ('0'.toNat : Int)).toNat]

/-- An authenticated concrete state used by witnesses. -/
def pstAuth : PState :=
  ⟨⟨some "acc", some "acc"⟩,
   ⟨some "alice", some "alice", some "acc", some "acc", some "rt", some "g1"⟩⟩

/-- A logged-out concrete state used by witnesses. -/
def pstEmpty : PState := ⟨{}, {}⟩

/-- A renewal response carrying a fresh token pair. -/
def renewOk : HttpResp :=
  .json [("access_token", "fresh-access"), ("refresh_token", "fresh-refresh")]

/-- An operation that succeeds exactly when the fresh access token has been
installed, and otherwise fails with a ValueError mentioning the token. -/
def opNeedsFresh : OpFun Nat :=
  fun st =>
    if st.session.auth_token = some "fresh-access" then ⟨.ok 7, st, [], []⟩
    else ⟨.error (.valueError "Invalid token"), st, [], []⟩

/-- An operation that always fails with a ValueError mentioning the token. -/
def opAlwaysTokenFail : OpFun Nat :=
  fun st => ⟨.error (.valueError "Invalid token"), st, [], []⟩

/-- A concrete game value used as an engine response by witnesses. -/
def someGame : GameDetail :=
  ⟨"g1", "waiting", ⟨_username_to_party "alice", _username_to_party "bob"⟩⟩

/-- Values of one claim of a party. -/
def claimValues (p : Party) (k : String) : Option (List String) :=
  (p.entity.find? (fun kv => kv.1 == k)).map (fun kv => kv.2)

/-- C8: a first failure without the token signal propagates unchanged, with no
refresh exchange and a single invocation of the wrapped operation. -/
theorem c8_no_signal_propagates {α : Type} (func : OpFun α) (renew : HttpResp) (st : PState)
    (e : PyExc) (h1 : (func st).result = .error e) (h2 : tokenSignal e = false) :
    (with_token_refresh func renew st).result = .error e ∧
    (with_token_refresh func renew st).refreshCalls = 0 ∧
    (with_token_refresh func renew st).opCalls = 1 ∧
    (with_token_refresh func renew st).state = (func st).state ∧
    (with_token_refresh func renew st).shown = (func st).shown := by
  simp only [with_token_refresh, h1, h2]
  simp

/-- C8 witness: a concrete operation failing without a token signal propagates
unchanged and triggers no refresh. -/
theorem c8_witness :
    (with_token_refresh (get_chess_games (.error (.otherExc "connection refused"))) renewOk
        pstAuth).result = .error (.otherExc "connection refused") ∧
    (with_token_refresh (get_chess_games (.error (.otherExc "connection refused"))) renewOk
        pstAuth).refreshCalls = 0 := by
  have h := c8_no_signal_propagates (get_chess_games (.error (.otherExc "connection refused")))
    renewOk pstAuth (.otherExc "connection refused") (by decide) (by decide)
  exact ⟨h.1, h.2.1⟩

/-- C2: a first failure with the token signal followed by a failing renewal
exchange clears the whole session, runs the operation exactly once, performs one
refresh exchange, displays the please-login-again message and surfaces a rerun. -/
theorem c2_refresh_failure_clears_session {α : Type} (func : OpFun α) (renew : HttpResp)
    (st : PState) (e : PyExc)
    (h1 : (func st).result = .error e)
    (h2 : tokenSignal e = true)
    (h3 : ¬ (func st).state.session.refresh_token.getD "" = "")
    (h4 : ∀ td, ¬ refresh_token renew = .ok td) :
    (with_token_refresh func renew st).opCalls = 1 ∧
    (with_token_refresh func renew st).refreshCalls = 1 ∧
    (with_token_refresh func renew st).state.session = emptySession ∧
    (with_token_refresh func renew st).result = .error .rerun ∧
    "Session expired. Please login again." ∈ (with_token_refresh func renew st).shown := by
  have hev : ensure_valid_token renew (func st).state =
      ⟨.error (.valueError "Session expired. Please login again."), (func st).state, 1⟩ := by
    unfold ensure_valid_token
    rw [if_neg h3]
    rcases hr : refresh_token renew with e' | td
    · rfl
    · exact absurd hr (h4 td)
  simp only [with_token_refresh, h1, h2, hev]
  simp

/-- C2 witness: concrete failing renewal clears the session after one invocation. -/
theorem c2_witness :
    (with_token_refresh opAlwaysTokenFail (.failure "boom") pstAuth).opCalls = 1 ∧
    (with_token_refresh opAlwaysTokenFail (.failure "boom") pstAuth).state.session =
      emptySession ∧
    "Session expired. Please login again." ∈
      (with_token_refresh opAlwaysTokenFail (.failure "boom") pstAuth).shown := by
  have h := c2_refresh_failure_clears_session opAlwaysTokenFail (.failure "boom") pstAuth
    (.valueError "Invalid token") (by decide) (by decide) (by decide)
    (by intro td h; simp [refresh_token] at h)
  exact ⟨h.1, h.2.2.1, h.2.2.2.2⟩

/-- C1 counterexample: an operation that fails both times with a `ValueError`
mentioning the token, with a renewal that succeeds, is invoked twice — but the
wrapper does not return the second outcome: it clears the session (so the
renewed pair is not kept) and raises a rerun instead. -/
theorem c1_counterexample :
    (opAlwaysTokenFail pstAuth).result = .error (.valueError "Invalid token") ∧
    tokenSignal (.valueError "Invalid token") = true ∧
    refresh_token renewOk = .ok ⟨"fresh-access", "fresh-refresh"⟩ ∧
    (with_token_refresh opAlwaysTokenFail renewOk pstAuth).opCalls = 2 ∧
    ¬ (with_token_refresh opAlwaysTokenFail renewOk pstAuth).state.session.auth_token =
        some "fresh-access" ∧
    ¬ (with_token_refresh opAlwaysTokenFail renewOk pstAuth).result =
        (opAlwaysTokenFail (ensure_valid_token renewOk pstAuth).state).result := by
  decide

/-- C1 (amended): after a token-signal failure and a successful renewal, the new
token pair is stored and the operation runs exactly once more (twice in total,
one refresh exchange); the second outcome is returned as is — success or
non-`ValueError` failure — but a second failure that is a `ValueError` is
displayed, the session is cleared and a rerun is raised instead. -/
theorem c1_amended_single_retry {α : Type} (func : OpFun α) (renew : HttpResp) (st : PState)
    (e : PyExc) (td : TokenData)
    (h1 : (func st).result = .error e)
    (h2 : tokenSignal e = true)
    (h3 : ¬ (func st).state.session.refresh_token.getD "" = "")
    (h4 : refresh_token renew = .ok td) :
    (ensure_valid_token renew (func st).state).state.session.auth_token =
      some td.access_token ∧
    (ensure_valid_token renew (func st).state).state.session.refresh_token =
      some td.refresh_token ∧
    (with_token_refresh func renew st).opCalls = 2 ∧
    (with_token_refresh func renew st).refreshCalls = 1 ∧
    (∀ v, (func (ensure_valid_token renew (func st).state).state).result = .ok v →
      (with_token_refresh func renew st).result = .ok v ∧
      (with_token_refresh func renew st).state =
        (func (ensure_valid_token renew (func st).state).state).state) ∧
    (∀ m, (func (ensure_valid_token renew (func st).state).state).result =
        .error (.valueError m) →
      (with_token_refresh func renew st).result = .error .rerun ∧
      (with_token_refresh func renew st).state.session = emptySession) ∧
    (∀ e2, (func (ensure_valid_token renew (func st).state).state).result = .error e2 →
      (∀ m, ¬ e2 = PyExc.valueError m) →
      (with_token_refresh func renew st).result = .error e2 ∧
      (with_token_refresh func renew st).state =
        (func (ensure_valid_token renew (func st).state).state).state) := by
  have hev : ensure_valid_token renew (func st).state =
      ⟨.ok (),
        ⟨⟨some td.access_token, some td.access_token⟩,
          { (func st).state.session with
            api_client := some td.access_token,
            auth_token := some td.access_token,
            refresh_token := some td.refresh_token }⟩, 1⟩ := by
    unfold ensure_valid_token
    rw [if_neg h3, h4]
  refine ⟨by rw [hev], by rw [hev], ?_, ?_, ?_, ?_, ?_⟩
  · simp only [with_token_refresh, h1, h2, hev]
    rcases hr2 : (func (ensure_valid_token renew (func st).state).state).result with e2 | v
    · rw [hev] at hr2
      rcases e2 with m | m | _ <;> simp [hr2]
    · rw [hev] at hr2
      simp [hr2]
  · simp only [with_token_refresh, h1, h2, hev]
    rcases hr2 : (func (ensure_valid_token renew (func st).state).state).result with e2 | v
    · rw [hev] at hr2
      rcases e2 with m | m | _ <;> simp [hr2]
    · rw [hev] at hr2
      simp [hr2]
  · intro v hv
    rw [hev] at hv
    simp only [with_token_refresh, h1, h2, hev, hv]
    simp
  · intro m hm
    rw [hev] at hm
    simp only [with_token_refresh, h1, h2, hev, hm]
    simp
  · intro e2 he2 hne
    rw [hev] at he2
    simp only [with_token_refresh, h1, h2, hev, he2]
    rcases e2 with m | m | _
    · exact absurd rfl (hne m)
    · simp
    · simp

/-- C1 (amended) witness: a concrete operation that fails once with a token
signal and then succeeds after the renewed pair is installed; the wrapper
returns the second outcome and ran it twice. -/
theorem c1_amended_witness :
    (with_token_refresh opNeedsFresh renewOk pstAuth).opCalls = 2 ∧
    (with_token_refresh opNeedsFresh renewOk pstAuth).result = .ok 7 ∧
    (ensure_valid_token renewOk (opNeedsFresh pstAuth).state).state.session.refresh_token =
      some "fresh-refresh" := by
  have h := c1_amended_single_retry opNeedsFresh renewOk pstAuth
    (.valueError "Invalid token") ⟨"fresh-access", "fresh-refresh"⟩
    (by decide) (by decide) (by decide) (by decide)
  exact ⟨h.2.2.1, (h.2.2.2.2.1 7 (by decide)).1, h.2.1⟩

/-- Helper: with an engine failure supplied, the `try` body of `make_move` always
ends in some failure (the engine call or an earlier step raised). -/
theorem make_move_try_err (gid fp tp turn : String) (e0 : PyExc) (st : PState) :
    ∃ e1, (make_move_try gid fp tp turn (.error e0) st).result = .error e1 := by
  unfold make_move_try
  repeat' split
  all_goals exact ⟨_, rfl⟩

/-- Helper: with an engine failure supplied, `make_move` raises the uniform
`ValueError("Move failed")`. -/
theorem make_move_result_error (gid fp tp turn : String) (e0 : PyExc) (st : PState) :
    (make_move gid fp tp turn (.error e0) st).result = .error (.valueError "Move failed") := by
  obtain ⟨e1, h⟩ := make_move_try_err gid fp tp turn e0 st
  simp [make_move, h]

/-- Helper: `make_move` either succeeds or raises exactly
`ValueError("Move failed")`. -/
theorem make_move_result_shape (gid fp tp turn : String) (resp : Except PyExc Unit)
    (st : PState) :
    (make_move gid fp tp turn resp st).result = .ok () ∨
    (make_move gid fp tp turn resp st).result = .error (.valueError "Move failed") := by
  unfold make_move
  rcases h : (make_move_try gid fp tp turn resp st).result with e1 | v
  · right; simp [h]
  · left; simp [h]

/-- Helper: the decorated `make_move` behaves exactly like the plain one — since
every failure it raises is `ValueError("Move failed")`, which never carries the
token signal, the wrapper performs no refresh and no retry. -/
theorem wrap_make_move (gid fp tp turn : String) (resp : Except PyExc Unit)
    (renew : HttpResp) (st : PState) :
    with_token_refresh (make_move gid fp tp turn resp) renew st =
      ⟨(make_move gid fp tp turn resp st).result, (make_move gid fp tp turn resp st).state,
        1, 0, (make_move gid fp tp turn resp st).calls,
        (make_move gid fp tp turn resp st).shown⟩ := by
  have hts : tokenSignal (.valueError "Move failed") = false := by decide
  rcases make_move_result_shape gid fp tp turn resp st with h | h
  · simp only [with_token_refresh, h]
  · simp only [with_token_refresh, h, hts]
    simp

/-- C3 counterexample: an engine failure inside `make_move` that carries the
token signal, with a renewal available that would succeed, still triggers no
refresh and no retried invocation — the claimed one-refresh-one-retry recovery
does not happen for `submit_move`. -/
theorem c3_counterexample :
    tokenSignal (.otherExc "401 Unauthorized: expired token") = true ∧
    ¬ pstAuth.session.refresh_token.getD "" = "" ∧
    refresh_token renewOk = .ok ⟨"fresh-access", "fresh-refresh"⟩ ∧
    (with_token_refresh (make_move "g1" "e2" "e4" "WHITE"
        (.error (.otherExc "401 Unauthorized: expired token"))) renewOk pstAuth).refreshCalls
      = 0 ∧
    (with_token_refresh (make_move "g1" "e2" "e4" "WHITE"
        (.error (.otherExc "401 Unauthorized: expired token"))) renewOk pstAuth).opCalls
      = 1 := by
  decide

/-- C3 (amended): `make_move` is wrapped, but its internal classification
replaces every engine failure — token-signalled or not — by
`ValueError("Move failed")` before the wrapper inspects it, so no refresh and no
retry ever occur for failures inside `submit_move`: the wrapped body runs once,
zero refresh exchanges happen, and the generic move error is surfaced. -/
theorem c3_amended_no_retry_for_moves (gid fp tp turn msg : String) (renew : HttpResp)
    (st : PState) :
    (with_token_refresh (make_move gid fp tp turn (.error (.otherExc msg))) renew st).result =
      .error (.valueError "Move failed") ∧
    (with_token_refresh (make_move gid fp tp turn (.error (.otherExc msg))) renew st).opCalls
      = 1 ∧
    (with_token_refresh (make_move gid fp tp turn (.error (.otherExc msg))) renew st).refreshCalls
      = 0 := by
  rw [wrap_make_move]
  exact ⟨make_move_result_error gid fp tp turn (.otherExc msg) st, rfl, rfl⟩

/-- Helper: lower-casing a file letter that is already in a-h is the identity. -/
theorem letter_toLower (c : Char) (h : c ∈ "abcdefgh".toList) : c.toLower = c := by
  have h2 : c ∈ ['a', 'b', 'c', 'd', 'e', 'f', 'g', 'h'] := h
  fin_cases h2 <;> decide

/-- Helper: Python `int` on a rank digit in 1-8 yields its numeric value. -/
theorem digit_py_int (c : Char) (h : c ∈ "12345678".toList) :
    py_int_of_char c = .ok ((c.toNat : Int) - ('0'.toNat : Int)) := by
  have h2 : c ∈ ['1', '2', '3', '4', '5', '6', '7', '8'] := h
  fin_cases h2 <;> decide

/-- Helper: indexing a two-character string. -/
theorem str_get_mk_0 (c0 c1 : Char) : str_get (String.mk [c0, c1]) 0 = .ok c0 := rfl

/-- Helper: indexing a two-character string at position 1. -/
theorem str_get_mk_1 (c0 c1 : Char) : str_get (String.mk [c0, c1]) 1 = .ok c1 := rfl

/-- C4: for any valid pair of squares, the decorated `make_move` issues exactly
one engine request, against the white-move endpoint exactly when the turn is
WHITE, whose coordinates are the file letter minus `a` and the digit value minus
one for both the from- and the to-position. -/
theorem c4_submit_move_coordinates (gid turn : String) (c0 c1 c2 c3 : Char)
    (resp : Except PyExc Unit) (renew : HttpResp) (st : PState)
    (hcl : st.session.api_client.isSome = true)
    (h0 : c0 ∈ "abcdefgh".toList) (h1 : c1 ∈ "12345678".toList)
    (h2 : c2 ∈ "abcdefgh".toList) (h3 : c3 ∈ "12345678".toList) :
    (with_token_refresh (make_move gid (String.mk [c0, c1]) (String.mk [c2, c3]) turn resp)
        renew st).calls =
      [if turn = "WHITE" then
        EngineCall.chessMakeWhiteMove gid
          ⟨⟨(c0.toNat : Int) - ('a'.toNat : Int), ((c1.toNat : Int) - ('0'.toNat : Int)) - 1⟩,
           ⟨(c2.toNat : Int) - ('a'.toNat : Int), ((c3.toNat : Int) - ('0'.toNat : Int)) - 1⟩⟩
      else
        EngineCall.chessMakeBlackMove gid
          ⟨⟨(c0.toNat : Int) - ('a'.toNat : Int), ((c1.toNat : Int) - ('0'.toNat : Int)) - 1⟩,
           ⟨(c2.toNat : Int) - ('a'.toNat : Int), ((c3.toNat : Int) - ('0'.toNat : Int)) - 1⟩⟩] := by
  obtain ⟨a, ha⟩ := Option.isSome_iff_exists.mp hcl
  have htry : make_move_try gid (String.mk [c0, c1]) (String.mk [c2, c3]) turn resp st =
      ⟨resp, st,
        [if turn = "WHITE" then
          EngineCall.chessMakeWhiteMove gid
            ⟨⟨(c0.toNat : Int) - ('a'.toNat : Int), ((c1.toNat : Int) - ('0'.toNat : Int)) - 1⟩,
             ⟨(c2.toNat : Int) - ('a'.toNat : Int), ((c3.toNat : Int) - ('0'.toNat : Int)) - 1⟩⟩
        else
          EngineCall.chessMakeBlackMove gid
            ⟨⟨(c0.toNat : Int) - ('a'.toNat : Int), ((c1.toNat : Int) - ('0'.toNat : Int)) - 1⟩,
             ⟨(c2.toNat : Int) - ('a'.toNat : Int), ((c3.toNat : Int) - ('0'.toNat : Int)) - 1⟩⟩],
        []⟩ := by
    unfold make_move_try
    rw [ha]
    simp only [str_get_mk_0, str_get_mk_1, digit_py_int c1 h1, digit_py_int c3 h3,
      letter_toLower c0 h0, letter_toLower c2 h2]
    simp
  have hcalls : (make_move gid (String.mk [c0, c1]) (String.mk [c2, c3]) turn resp st).calls =
      (make_move_try gid (String.mk [c0, c1]) (String.mk [c2, c3]) turn resp st).calls := by
    unfold make_move
    rcases h : (make_move_try gid (String.mk [c0, c1]) (String.mk [c2, c3]) turn resp st).result
      with e1 | v <;> simp [h]
  rw [wrap_make_move]
  rw [hcalls, htry]

/-- C4 witness: `submit_move(id, e2, e4, WHITE)` sends from (4,1) to (4,3) to the
white-move endpoint, and the same squares with turn BLACK go to the black-move
endpoint. -/
theorem c4_witness :
    (with_token_refresh (make_move "g1" (String.mk ['e', '2']) (String.mk ['e', '4']) "WHITE"
        (.ok ())) renewOk pstAuth).calls =
      [EngineCall.chessMakeWhiteMove "g1" ⟨⟨4, 1⟩, ⟨4, 3⟩⟩] ∧
    (with_token_refresh (make_move "g1" (String.mk ['e', '2']) (String.mk ['e', '4']) "BLACK"
        (.ok ())) renewOk pstAuth).calls =
      [EngineCall.chessMakeBlackMove "g1" ⟨⟨4, 1⟩, ⟨4, 3⟩⟩] := by
  constructor
  · exact (c4_submit_move_coordinates "g1" "WHITE" 'e' '2' 'e' '4' (.ok ()) renewOk pstAuth
      (by decide) (by decide) (by decide) (by decide) (by decide)).trans (by decide)
  · exact (c4_submit_move_coordinates "g1" "BLACK" 'e' '2' 'e' '4' (.ok ()) renewOk pstAuth
      (by decide) (by decide) (by decide) (by decide) (by decide)).trans (by decide)

/-- Helper: the preferred_username claim of a built party. -/
theorem claimValues_username (u : String) :
    claimValues (_username_to_party u) "preferred_username" = some [u] := rfl

/-- Helper: the issuer claim of a built party. -/
theorem claimValues_iss (u : String) :
    claimValues (_username_to_party u) "iss" = some [auth_url] := rfl

/-- C5: `create_game` submits exactly one creation request whose white party
carries the requester username when the requested colour upper-cases to WHITE
(and the opponent otherwise), whose black party carries the other username, and
whose parties both carry the configured issuer. -/
theorem c5_create_game_parties (player opponent color : String)
    (resp : Except PyExc GameDetail) (st : PState)
    (h : st.session.api_client.isSome = true) :
    ∃ pw pb,
      (create_chess_instance player opponent color resp st).calls =
        [EngineCall.createChess ⟨⟨pw, pb⟩⟩] ∧
      claimValues pw "preferred_username" =
        some [if pyUpper color = "WHITE" then player else opponent] ∧
      claimValues pb "preferred_username" =
        some [if pyUpper color = "WHITE" then opponent else player] ∧
      claimValues pw "iss" = some [auth_url] ∧
      claimValues pb "iss" = some [auth_url] := by
  obtain ⟨a, ha⟩ := Option.isSome_iff_exists.mp h
  refine ⟨_username_to_party (if pyUpper color = "WHITE" then player else opponent),
          _username_to_party (if pyUpper color = "WHITE" then opponent else player),
          ?_, ?_, ?_, ?_, ?_⟩
  · unfold create_chess_instance
    rw [ha]
    simp
  · exact claimValues_username _
  · exact claimValues_username _
  · exact claimValues_iss _
  · exact claimValues_iss _

/-- C5 witness: creating as alice against bob with colour white puts alice on
white and bob on black, and requesting black swaps them; both carry the issuer. -/
theorem c5_witness :
    (∃ pw pb,
      (create_chess_instance "alice" "bob" "white" (.ok someGame) pstAuth).calls =
        [EngineCall.createChess ⟨⟨pw, pb⟩⟩] ∧
      claimValues pw "preferred_username" =
        some [if pyUpper "white" = "WHITE" then "alice" else "bob"] ∧
      claimValues pb "preferred_username" =
        some [if pyUpper "white" = "WHITE" then "bob" else "alice"] ∧
      claimValues pw "iss" = some [auth_url] ∧
      claimValues pb "iss" = some [auth_url]) ∧
    (∃ pw pb,
      (create_chess_instance "alice" "bob" "black" (.ok someGame) pstAuth).calls =
        [EngineCall.createChess ⟨⟨pw, pb⟩⟩] ∧
      claimValues pw "preferred_username" =
        some [if pyUpper "black" = "WHITE" then "alice" else "bob"] ∧
      claimValues pb "preferred_username" =
        some [if pyUpper "black" = "WHITE" then "bob" else "alice"] ∧
      claimValues pw "iss" = some [auth_url] ∧
      claimValues pb "iss" = some [auth_url]) :=
  ⟨c5_create_game_parties "alice" "bob" "white" (.ok someGame) pstAuth (by decide),
   c5_create_game_parties "alice" "bob" "black" (.ok someGame) pstAuth (by decide)⟩

/-- Helper: when the `try` body fails, `make_move` raises the uniform error and
appends exactly one classified message, chosen by the substring checks with
"Invalid move" tested first. -/
theorem make_move_classified (gid fp tp turn : String) (resp : Except PyExc Unit)
    (st : PState) (e1 : PyExc)
    (h : (make_move_try gid fp tp turn resp st).result = .error e1) :
    (make_move gid fp tp turn resp st).result = .error (.valueError "Move failed") ∧
    (make_move gid fp tp turn resp st).shown =
      (make_move_try gid fp tp turn resp st).shown ++
        [if strHas e1.str "Invalid move" then "Invalid move! Please check the rules of chess."
         else if strHas e1.str "Not your turn" then "Not your turn!"
         else "Move failed. Please try again."] := by
  simp [make_move, h]

/-- Helper: with a logged-in session, the `try` body of `make_move` on the
squares e2 and e4 reaches the engine call and propagates its outcome, having
displayed nothing. -/
theorem make_move_try_e2e4 (gid turn : String) (resp : Except PyExc Unit) (st : PState)
    (a : String) (ha : st.session.api_client = some a) :
    make_move_try gid (String.mk ['e', '2']) (String.mk ['e', '4']) turn resp st =
      ⟨resp, st,
        [if turn = "WHITE" then
          EngineCall.chessMakeWhiteMove gid ⟨⟨4, 1⟩, ⟨4, 3⟩⟩
        else
          EngineCall.chessMakeBlackMove gid ⟨⟨4, 1⟩, ⟨4, 3⟩⟩], []⟩ := by
  unfold make_move_try
  rw [ha]
  rfl

/-- C6 counterexample: engine failure text containing both substrings — the
claim classifies text containing "Not your turn" as NotYourTurn, but the code
tests "Invalid move" first and surfaces the InvalidMove message. -/
theorem c6_counterexample :
    strHas "Invalid move and Not your turn" "Not your turn" = true ∧
    (make_move "g1" (String.mk ['e', '2']) (String.mk ['e', '4']) "WHITE"
        (.error (.otherExc "Invalid move and Not your turn")) pstAuth).shown =
      ["Invalid move! Please check the rules of chess."] ∧
    ¬ "Not your turn!" ∈
      (make_move "g1" (String.mk ['e', '2']) (String.mk ['e', '4']) "WHITE"
        (.error (.otherExc "Invalid move and Not your turn")) pstAuth).shown := by
  decide

/-- C6 (amended): an engine failure inside `submit_move` is classified into
exactly one of three fixed user-facing messages, with "Invalid move" taking
precedence over "Not your turn", and the error raised to the caller is the fixed
`ValueError("Move failed")` — never the raw engine text. -/
theorem c6_amended_classification (gid msg : String) (st : PState) (a : String)
    (ha : st.session.api_client = some a) :
    (strHas msg "Invalid move" = true →
      (make_move gid (String.mk ['e', '2']) (String.mk ['e', '4']) "WHITE"
          (.error (.otherExc msg)) st).shown =
        ["Invalid move! Please check the rules of chess."]) ∧
    (strHas msg "Invalid move" = false → strHas msg "Not your turn" = true →
      (make_move gid (String.mk ['e', '2']) (String.mk ['e', '4']) "WHITE"
          (.error (.otherExc msg)) st).shown = ["Not your turn!"]) ∧
    (strHas msg "Invalid move" = false → strHas msg "Not your turn" = false →
      (make_move gid (String.mk ['e', '2']) (String.mk ['e', '4']) "WHITE"
          (.error (.otherExc msg)) st).shown = ["Move failed. Please try again."]) ∧
    (make_move gid (String.mk ['e', '2']) (String.mk ['e', '4']) "WHITE"
        (.error (.otherExc msg)) st).result = .error (.valueError "Move failed") := by
  have htry := make_move_try_e2e4 gid "WHITE" (.error (.otherExc msg)) st a ha
  have hres : (make_move_try gid (String.mk ['e', '2']) (String.mk ['e', '4']) "WHITE"
      (.error (.otherExc msg)) st).result = .error (.otherExc msg) := by rw [htry]
  have hc := make_move_classified gid (String.mk ['e', '2']) (String.mk ['e', '4']) "WHITE"
    (.error (.otherExc msg)) st (.otherExc msg) hres
  have hsh : (make_move_try gid (String.mk ['e', '2']) (String.mk ['e', '4']) "WHITE"
      (.error (.otherExc msg)) st).shown = [] := by rw [htry]
  refine ⟨?_, ?_, ?_, hc.1⟩
  · intro h1
    rw [hc.2, hsh]
    simp [PyExc.str, h1]
  · intro h1 h2
    rw [hc.2, hsh]
    simp [PyExc.str, h1, h2]
  · intro h1 h2
    rw [hc.2, hsh]
    simp [PyExc.str, h1, h2]

/-- C6 (amended) witness: the three categories at concrete engine failure texts. -/
theorem c6_witness :
    (make_move "g1" (String.mk ['e', '2']) (String.mk ['e', '4']) "WHITE"
        (.error (.otherExc "Not your turn")) pstAuth).shown = ["Not your turn!"] ∧
    (make_move "g1" (String.mk ['e', '2']) (String.mk ['e', '4']) "WHITE"
        (.error (.otherExc "Invalid move")) pstAuth).shown =
      ["Invalid move! Please check the rules of chess."] ∧
    (make_move "g1" (String.mk ['e', '2']) (String.mk ['e', '4']) "WHITE"
        (.error (.otherExc "boom")) pstAuth).shown = ["Move failed. Please try again."] ∧
    (make_move "g1" (String.mk ['e', '2']) (String.mk ['e', '4']) "WHITE"
        (.error (.otherExc "boom")) pstAuth).result = .error (.valueError "Move failed") :=
  ⟨(c6_amended_classification "g1" "Not your turn" pstAuth "acc" rfl).2.1 (by decide) (by decide),
   (c6_amended_classification "g1" "Invalid move" pstAuth "acc" rfl).1 (by decide),
   (c6_amended_classification "g1" "boom" pstAuth "acc" rfl).2.2.1 (by decide) (by decide),
   (c6_amended_classification "g1" "boom" pstAuth "acc" rfl).2.2.2⟩

/-- Helper: an operation that immediately raises the login-first error is
propagated unchanged by the wrapper, with no refresh and a single invocation. -/
theorem wrap_login_first {α : Type} (func : OpFun α) (renew : HttpResp) (st : PState)
    (hf : func st = ⟨.error (.valueError "Please login first"), st, [], []⟩) :
    with_token_refresh func renew st =
      ⟨.error (.valueError "Please login first"), st, 1, 0, [], []⟩ := by
  have hts : tokenSignal (.valueError "Please login first") = false := by decide
  simp only [with_token_refresh, hf, hts]
  simp

/-- Helper: `make_move` on a logged-out session raises the generic move error,
displays the generic message, and issues no engine call. -/
theorem make_move_not_logged_in (gid fp tp turn : String) (resp : Except PyExc Unit)
    (st : PState) (h : st.session.api_client = none) :
    make_move gid fp tp turn resp st =
      ⟨.error (.valueError "Move failed"), st, [], ["Move failed. Please try again."]⟩ := by
  have htry : make_move_try gid fp tp turn resp st =
      ⟨.error (.valueError "Please login first"), st, [], []⟩ := by
    unfold make_move_try
    rw [h]
    rfl
  unfold make_move
  rw [htry]
  have h1 : strHas "Please login first" "Invalid move" = false := by decide
  have h2 : strHas "Please login first" "Not your turn" = false := by decide
  simp [PyExc.str, h1, h2]

/-- C10 counterexample: on a logged-out session, `submit_move` does not surface
"Please login first" — its internal handler converts it into the generic
`ValueError("Move failed")` (though still with no network call). -/
theorem c10_counterexample :
    pstEmpty.session.api_client = none ∧
    (with_token_refresh (make_move "g1" (String.mk ['e', '2']) (String.mk ['e', '4']) "WHITE"
        (.ok ())) renewOk pstEmpty).result = .error (.valueError "Move failed") ∧
    ¬ (with_token_refresh (make_move "g1" (String.mk ['e', '2']) (String.mk ['e', '4']) "WHITE"
        (.ok ())) renewOk pstEmpty).result = .error (.valueError "Please login first") := by
  decide

/-- C10 (amended): on a session holding no API client, every authenticated
operation fails before any network call and no refresh is attempted;
`create_game`, `list_games`, `get_game`, `get_board` and `get_turn` surface
"Please login first" unchanged, while `submit_move` converts it into its generic
`ValueError("Move failed")`, displaying the generic move message. -/
theorem c10_amended_unauthenticated (st : PState) (h : st.session.api_client = none) :
    (∀ (resp : Except PyExc (List GameSummary)) (renew : HttpResp),
      with_token_refresh (get_chess_games resp) renew st =
        ⟨.error (.valueError "Please login first"), st, 1, 0, [], []⟩) ∧
    (∀ (gid : String) (resp : Except PyExc (List Piece)) (renew : HttpResp),
      with_token_refresh (get_board gid resp) renew st =
        ⟨.error (.valueError "Please login first"), st, 1, 0, [], []⟩) ∧
    (∀ (gid : String) (resp : Except PyExc String) (renew : HttpResp),
      with_token_refresh (get_current_turn gid resp) renew st =
        ⟨.error (.valueError "Please login first"), st, 1, 0, [], []⟩) ∧
    (∀ (gid : String) (resp : Except PyExc GameDetail) (renew : HttpResp),
      with_token_refresh (get_game gid resp) renew st =
        ⟨.error (.valueError "Please login first"), st, 1, 0, [], []⟩) ∧
    (∀ (p o c : String) (resp : Except PyExc GameDetail) (renew : HttpResp),
      with_token_refresh (create_chess_instance p o c resp) renew st =
        ⟨.error (.valueError "Please login first"), st, 1, 0, [], []⟩) ∧
    (∀ (gid fp tp turn : String) (resp : Except PyExc Unit) (renew : HttpResp),
      with_token_refresh (make_move gid fp tp turn resp) renew st =
        ⟨.error (.valueError "Move failed"), st, 1, 0, [],
          ["Move failed. Please try again."]⟩) := by
  refine ⟨?_, ?_, ?_, ?_, ?_, ?_⟩
  · intro resp renew
    exact wrap_login_first _ renew st (by simp [get_chess_games, h])
  · intro gid resp renew
    exact wrap_login_first _ renew st (by simp [get_board, h])
  · intro gid resp renew
    exact wrap_login_first _ renew st (by simp [get_current_turn, h])
  · intro gid resp renew
    exact wrap_login_first _ renew st (by simp [get_game, h])
  · intro p o c resp renew
    exact wrap_login_first _ renew st (by simp [create_chess_instance, h])
  · intro gid fp tp turn resp renew
    rw [wrap_make_move, make_move_not_logged_in gid fp tp turn resp st h]

/-- C10 (amended) witness: the behaviour at the concrete logged-out state. -/
theorem c10_witness :
    with_token_refresh (get_chess_games (.ok [])) renewOk pstEmpty =
      ⟨.error (.valueError "Please login first"), pstEmpty, 1, 0, [], []⟩ ∧
    with_token_refresh (make_move "g1" (String.mk ['e', '2']) (String.mk ['e', '4']) "WHITE"
        (.ok ())) renewOk pstEmpty =
      ⟨.error (.valueError "Move failed"), pstEmpty, 1, 0, [],
        ["Move failed. Please try again."]⟩ := by
  have h := c10_amended_unauthenticated pstEmpty rfl
  exact ⟨h.1 (.ok []) renewOk,
    h.2.2.2.2.2 "g1" (String.mk ['e', '2']) (String.mk ['e', '4']) "WHITE" (.ok ()) renewOk⟩

/-- C9: the Coordinate Translator round-trip laws: parsing the rendering of any
valid position gives the position back, and rendering the parse of any valid
square string gives the string back. -/
theorem c9_roundtrip :
    (∀ p : Position, 0 ≤ p.x → p.x ≤ 7 → 0 ≤ p.y → p.y ≤ 7 →
      parse_square (to_square p) = some p) ∧
    (∀ s : String, square_valid s = true →
      (parse_square s).isSome = true ∧ to_square ((parse_square s).getD ⟨0, 0⟩) = s) := by
  constructor
  · rintro ⟨x, y⟩ hx1 hx2 hy1 hy2
    interval_cases x <;> interval_cases y <;> decide
  · intro s hv
    obtain ⟨l⟩ := s
    match l with
    | [] => simp [square_valid] at hv
    | [c0] => simp [square_valid] at hv
    | c0 :: c1 :: c2 :: l3 => simp [square_valid] at hv
    | [c0, c1] =>
      rw [show square_valid (String.mk [c0, c1]) =
            (decide (c0 ∈ "abcdefgh".toList) && decide (c1 ∈ "12345678".toList)) from rfl] at hv
      rw [Bool.and_eq_true, decide_eq_true_eq, decide_eq_true_eq] at hv
      obtain ⟨h0, h1⟩ := hv
      have h0' : c0 ∈ ['a', 'b', 'c', 'd', 'e', 'f', 'g', 'h'] := h0
      have h1' : c1 ∈ ['1', '2', '3', '4', '5', '6', '7', '8'] := h1
      fin_cases h0' <;> fin_cases h1' <;> decide

/-- C9 witness: the round trip at the concrete position (4,1) and square e2. -/
theorem c9_witness :
    parse_square (to_square ⟨4, 1⟩) = some ⟨4, 1⟩ ∧
    (parse_square "e2").isSome = true ∧
    to_square ((parse_square "e2").getD ⟨0, 0⟩) = "e2" :=
  ⟨c9_roundtrip.1 ⟨4, 1⟩ (by decide) (by decide) (by decide) (by decide),
   c9_roundtrip.2 "e2" (by decide)⟩

/-- Helper: indexing a nonempty string at 0. -/
theorem str_get_cons_0 (c : Char) (l : List Char) :
    str_get (String.mk (c :: l)) 0 = .ok c := rfl

/-- Helper: indexing a string with at least two characters at 1. -/
theorem str_get_cons_1 (c0 c1 : Char) (l : List Char) :
    str_get (String.mk (c0 :: c1 :: l)) 1 = .ok c1 := rfl

/-- Helper: indexing a one-character string at 1 raises IndexError. -/
theorem str_get_single_1 (c : Char) :
    str_get (String.mk [c]) 1 = .error (.otherExc "string index out of range") := rfl

/-- Helper: the length of a string built from a character list. -/
theorem str_length_mk (l : List Char) : (String.mk l).length = l.length := rfl

/-- Helper: whenever the form validation does not end with `valid_input` true on
two nonempty fields, the move form performs no engine call, never invokes the
decorated `make_move`, and displays exactly the validation messages. -/
theorem submit_no_call (gid fs ts turn : String) (resp : Except PyExc Unit)
    (renew : HttpResp) (st : PState)
    (h : ¬ ((move_form_validation fs ts).result = .ok true ∧ ¬ fs = "" ∧ ¬ ts = "")) :
    (move_form_submit gid fs ts turn resp renew st).calls = [] ∧
    (move_form_submit gid fs ts turn resp renew st).wrappedMoveCalls = 0 ∧
    (move_form_submit gid fs ts turn resp renew st).shown =
      (move_form_validation fs ts).shown := by
  unfold move_form_submit
  rcases hr : (move_form_validation fs ts).result with e | b
  · simp [hr]
  · have hcond : ¬ (b = true ∧ ¬ fs = "" ∧ ¬ ts = "") := by
      rintro ⟨hb, h1, h2⟩
      exact h ⟨by rw [hr, hb], h1, h2⟩
    simp [hr, hcond]

/-- Helper: on two nonempty fields, a validation that ends with `valid_input`
true certifies that both squares are valid, and if either square is invalid then
at least one validation message was displayed. -/
theorem validation_nonempty (fs ts : String) (hfs : ¬ fs = "") (hts : ¬ ts = "") :
    ((move_form_validation fs ts).result = .ok true →
      square_valid fs = true ∧ square_valid ts = true) ∧
    (square_valid fs = false ∨ square_valid ts = false →
      ¬ (move_form_validation fs ts).shown = []) := by
  obtain ⟨lf⟩ := fs
  obtain ⟨lt⟩ := ts
  rcases lf with _ | ⟨f0, lf1⟩
  · exact absurd rfl hfs
  rcases lt with _ | ⟨t0, lt1⟩
  · exact absurd rfl hts
  have hne : ¬ (String.mk (f0 :: lf1) = "" ∨ String.mk (t0 :: lt1) = "") := by
    rw [not_or]
    exact ⟨hfs, hts⟩
  rcases lf1 with _ | ⟨f1, lf2⟩
  · -- from-square has one character: the length message is shown, then the rank
    -- check raises IndexError
    have hval : move_form_validation (String.mk [f0]) (String.mk (t0 :: lt1)) =
        ⟨.error (.otherExc "string index out of range"),
          ["Squares must be in format like e2"] ++
            (if f0 ∈ "abcdefgh".toList ∧ t0 ∈ "abcdefgh".toList then []
             else ["File must be between a and h"])⟩ := by
      unfold move_form_validation
      rw [if_neg hne]
      simp only [str_get_cons_0, str_get_single_1, str_length_mk]
      simp
    rw [hval]
    constructor
    · intro hok
      simp at hok
    · intro _ hnil
      simp at hnil
  · rcases lt1 with _ | ⟨t1, lt2⟩
    · -- to-square has one character: length message shown; rank check either
      -- raises on the to-square or fails outright
      have hlen : ¬ ((String.mk (f0 :: f1 :: lf2)).length = 2 ∧
          (String.mk [t0]).length = 2) := by
        simp [str_length_mk]
      by_cases hd : f1 ∈ "12345678".toList
      · have hval : move_form_validation (String.mk (f0 :: f1 :: lf2)) (String.mk [t0]) =
            ⟨.error (.otherExc "string index out of range"),
              ["Squares must be in format like e2"] ++
                (if f0 ∈ "abcdefgh".toList ∧ t0 ∈ "abcdefgh".toList then []
                 else ["File must be between a and h"])⟩ := by
          unfold move_form_validation
          rw [if_neg hne]
          simp only [str_get_cons_0, str_get_cons_1, str_get_single_1]
          rw [if_neg hlen, if_pos hd]
        rw [hval]
        constructor
        · intro hok
          simp at hok
        · intro _ hnil
          simp at hnil
      · have hval : move_form_validation (String.mk (f0 :: f1 :: lf2)) (String.mk [t0]) =
            ⟨.ok false,
              ["Squares must be in format like e2"] ++
                (if f0 ∈ "abcdefgh".toList ∧ t0 ∈ "abcdefgh".toList then []
                 else ["File must be between a and h"]) ++
                ["Rank must be between 1 and 8"]⟩ := by
          unfold move_form_validation
          rw [if_neg hne]
          simp only [str_get_cons_0, str_get_cons_1, str_get_single_1]
          rw [if_neg hlen, if_neg hd]
        rw [hval]
        constructor
        · intro hok
          simp at hok
        · intro _ hnil
          simp at hnil
    · -- both fields have at least two characters
      by_cases hd : f1 ∈ "12345678".toList
      · have hval : move_form_validation (String.mk (f0 :: f1 :: lf2))
            (String.mk (t0 :: t1 :: lt2)) =
            ⟨.ok (decide ((String.mk (f0 :: f1 :: lf2)).length = 2 ∧
                    (String.mk (t0 :: t1 :: lt2)).length = 2) &&
                  decide (f0 ∈ "abcdefgh".toList ∧ t0 ∈ "abcdefgh".toList) &&
                  decide (t1 ∈ "12345678".toList)),
              (if (String.mk (f0 :: f1 :: lf2)).length = 2 ∧
                  (String.mk (t0 :: t1 :: lt2)).length = 2 then []
               else ["Squares must be in format like e2"]) ++
                (if f0 ∈ "abcdefgh".toList ∧ t0 ∈ "abcdefgh".toList then []
                 else ["File must be between a and h"]) ++
                (if t1 ∈ "12345678".toList then []
                 else ["Rank must be between 1 and 8"])⟩ := by
          unfold move_form_validation
          rw [if_neg hne]
          simp only [str_get_cons_0, str_get_cons_1]
          rw [if_pos hd]
        rw [hval]
        constructor
        · intro hok
          have hb : (decide ((String.mk (f0 :: f1 :: lf2)).length = 2 ∧
                (String.mk (t0 :: t1 :: lt2)).length = 2) &&
              decide (f0 ∈ "abcdefgh".toList ∧ t0 ∈ "abcdefgh".toList) &&
              decide (t1 ∈ "12345678".toList)) = true := by
            simpa using hok
          rw [Bool.and_eq_true, Bool.and_eq_true] at hb
          obtain ⟨⟨hb1, hb2⟩, hb3⟩ := hb
          rw [decide_eq_true_eq] at hb1 hb2 hb3
          obtain ⟨hl1, hl2⟩ := hb1
          obtain ⟨hf0, ht0⟩ := hb2
          have hlf2 : lf2 = [] := by
            rw [str_length_mk] at hl1
            simpa using hl1
          have hlt2 : lt2 = [] := by
            rw [str_length_mk] at hl2
            simpa using hl2
          subst hlf2
          subst hlt2
          constructor
          · rw [show square_valid (String.mk [f0, f1]) =
                (decide (f0 ∈ "abcdefgh".toList) && decide (f1 ∈ "12345678".toList)) from rfl]
            rw [decide_eq_true hf0, decide_eq_true hd]
            rfl
          · rw [show square_valid (String.mk [t0, t1]) =
                (decide (t0 ∈ "abcdefgh".toList) && decide (t1 ∈ "12345678".toList)) from rfl]
            rw [decide_eq_true ht0, decide_eq_true hb3]
            rfl
        · intro hmal hnil
          simp only [hval] at hnil
          by_cases h1 : (String.mk (f0 :: f1 :: lf2)).length = 2 ∧
              (String.mk (t0 :: t1 :: lt2)).length = 2
          · by_cases h2 : f0 ∈ "abcdefgh".toList ∧ t0 ∈ "abcdefgh".toList
            · by_cases h3 : t1 ∈ "12345678".toList
              · obtain ⟨hl1, hl2⟩ := h1
                obtain ⟨hf0, ht0⟩ := h2
                have hlf2 : lf2 = [] := by
                  rw [str_length_mk] at hl1
                  simpa using hl1
                have hlt2 : lt2 = [] := by
                  rw [str_length_mk] at hl2
                  simpa using hl2
                subst hlf2
                subst hlt2
                have hsf : square_valid (String.mk [f0, f1]) = true := by
                  rw [show square_valid (String.mk [f0, f1]) =
                      (decide (f0 ∈ "abcdefgh".toList) &&
                        decide (f1 ∈ "12345678".toList)) from rfl]
                  rw [decide_eq_true hf0, decide_eq_true hd]
                  rfl
                have hst : square_valid (String.mk [t0, t1]) = true := by
                  rw [show square_valid (String.mk [t0, t1]) =
                      (decide (t0 ∈ "abcdefgh".toList) &&
                        decide (t1 ∈ "12345678".toList)) from rfl]
                  rw [decide_eq_true ht0, decide_eq_true h3]
                  rfl
                rcases hmal with hm | hm
                · rw [hsf] at hm
                  cases hm
                · rw [hst] at hm
                  cases hm
              · rw [if_pos h1, if_pos h2, if_neg h3] at hnil
                simp at hnil
            · rw [if_neg h2] at hnil
              simp at hnil
          · rw [if_neg h1] at hnil
            simp at hnil
      · -- from-rank digit check fails outright: valid_input is false and the
        -- rank message is shown
        have hval : move_form_validation (String.mk (f0 :: f1 :: lf2))
            (String.mk (t0 :: t1 :: lt2)) =
            ⟨.ok false,
              (if (String.mk (f0 :: f1 :: lf2)).length = 2 ∧
                  (String.mk (t0 :: t1 :: lt2)).length = 2 then []
               else ["Squares must be in format like e2"]) ++
                (if f0 ∈ "abcdefgh".toList ∧ t0 ∈ "abcdefgh".toList then []
                 else ["File must be between a and h"]) ++
                ["Rank must be between 1 and 8"]⟩ := by
          unfold move_form_validation
          rw [if_neg hne]
          simp only [str_get_cons_0, str_get_cons_1]
          rw [if_neg hd]
        rw [hval]
        constructor
        · intro hok
          simp at hok
        · intro _ hnil
          simp at hnil

/-- C7 counterexample: an empty from-square is malformed (wrong length), and
while no network call happens, the form surfaces nothing at all — no
format-error condition is raised or displayed. -/
theorem c7_counterexample :
    square_valid "" = false ∧
    (move_form_submit "g1" "" "e4" "WHITE" (.ok ()) renewOk pstAuth).shown = [] ∧
    (move_form_submit "g1" "" "e4" "WHITE" (.ok ()) renewOk pstAuth).result = .ok () ∧
    (move_form_submit "g1" "" "e4" "WHITE" (.ok ()) renewOk pstAuth).calls = [] := by
  decide

/-- C7 (amended): a malformed from- or to-square never reaches the engine: the
move form performs no engine call and never invokes the move operation; when
both entered squares are nonempty a validation message is surfaced, but an empty
field makes the form do nothing silently. -/
theorem c7_amended_no_network (gid fs ts turn : String) (resp : Except PyExc Unit)
    (renew : HttpResp) (st : PState)
    (hmal : square_valid fs = false ∨ square_valid ts = false) :
    (move_form_submit gid fs ts turn resp renew st).calls = [] ∧
    (move_form_submit gid fs ts turn resp renew st).wrappedMoveCalls = 0 ∧
    (¬ fs = "" → ¬ ts = "" →
      ¬ (move_form_submit gid fs ts turn resp renew st).shown = []) := by
  by_cases hfs : fs = ""
  · have h := submit_no_call gid fs ts turn resp renew st
      (by rintro ⟨_, h1, _⟩; exact h1 hfs)
    exact ⟨h.1, h.2.1, fun h1 _ => absurd hfs h1⟩
  · by_cases hts : ts = ""
    · have h := submit_no_call gid fs ts turn resp renew st
        (by rintro ⟨_, _, h2⟩; exact h2 hts)
      exact ⟨h.1, h.2.1, fun _ h2 => absurd hts h2⟩
    · have hv := validation_nonempty fs ts hfs hts
      have hnotok : ¬ ((move_form_validation fs ts).result = .ok true ∧
          ¬ fs = "" ∧ ¬ ts = "") := by
        rintro ⟨hok, _, _⟩
        obtain ⟨hsf, hst⟩ := hv.1 hok
        rcases hmal with hm | hm
        · rw [hsf] at hm
          cases hm
        · rw [hst] at hm
          cases hm
      have h := submit_no_call gid fs ts turn resp renew st hnotok
      refine ⟨h.1, h.2.1, fun _ _ => ?_⟩
      rw [h.2.2]
      exact hv.2 hmal

/-- C7 (amended) witness: the square e9 (rank out of range) is rejected with a
message and produces no engine call. -/
theorem c7_witness :
    (move_form_submit "g1" "e9" "e4" "WHITE" (.ok ()) renewOk pstAuth).calls = [] ∧
    (move_form_submit "g1" "e9" "e4" "WHITE" (.ok ()) renewOk pstAuth).wrappedMoveCalls = 0 ∧
    ¬ (move_form_submit "g1" "e9" "e4" "WHITE" (.ok ()) renewOk pstAuth).shown = [] := by
  have h := c7_amended_no_network "g1" "e9" "e4" "WHITE" (.ok ()) renewOk pstAuth
    (by decide)
  exact ⟨h.1, h.2.1, h.2.2 (by decide) (by decide)⟩

end Chess
